import Mathlib

/-!
Verification of the owls storefront frontend: a shallow embedding of the
authenticated API client (axios response interceptor with token refresh),
the Zustand auth store and the Zustand cart store, together with theorems
about their behaviour.

Sources embedded:
  * the API client module (axios instance with request/response interceptors),
  * frontend/src/store/auth-store.ts,
  * the cart store module (useCartStore with persist).

Conventions of the embedding: each asynchronous store action or interceptor
handler is a pure function of (a) the settled results of the network calls it
awaits, supplied by an environment record, and (b) the client-side state it
reads and writes (cookies, localStorage entries, window.location, the in-memory
Zustand state). A promise that resolves is `Except.ok`, a promise that rejects
is `Except.error`.
-/

namespace Owls

/-- An axios request config. `retryFlag` embeds the ad-hoc field written as
the underscore-retry marker on the config object (absent = `false`);
`authHeader` is the Authorization header, when set. -/
structure AxiosRequest where
  url : String
  authHeader : Option String
  retryFlag : Bool
  deriving DecidableEq, Repr

/-- An axios response error as seen by the response interceptor:
the optional HTTP status of the response (absent for network
errors), the originating request config, and the response payload it carries. -/
structure HttpError where
  status : Option Nat
  config : AxiosRequest
  payload : String
  deriving DecidableEq, Repr

/-- The persisted slice of the auth store (localStorage key `auth-storage`):
the persist middleware keeps exactly the `user` and `isAuthenticated` fields. -/
structure AuthSnapshot where
  user : Option String
  isAuthenticated : Bool
  deriving DecidableEq, Repr

/-- The persisted slice of the cart store (localStorage key `cart-storage`):
the persist middleware keeps exactly the `cart` field, serialized. -/
structure CartSnapshot where
  cartData : Option String
  deriving DecidableEq, Repr

/-- Client-side browser storage visible to the API client: the two token
cookies, the two persisted store snapshots in localStorage, and
window.location (for the hard navigation on forced logout). -/
structure ClientStorage where
  access_token : Option String
  refresh_token : Option String
  authStorage : Option AuthSnapshot
  cartStorage : Option CartSnapshot
  location : String
  deriving DecidableEq, Repr

/-- Result of the dedicated refresh call (plain axios POST to
`/users/token/refresh/`): either a new access token or a rejection. -/
inductive RefreshResult where
  | success (access : String)
  | failure
  deriving DecidableEq, Repr

/-- Settled result of re-issuing the original request after a refresh:
either a resolved payload, or an error with a status and payload (the error
carries the re-issued request itself as its config). -/
inductive ResendOutcome where
  | ok (payload : String)
  | err (status : Option Nat) (payload : String)
  deriving DecidableEq, Repr

/-- The backend as the interceptor sees it: what the refresh endpoint answers
for a given refresh token, and how the backend answers a re-issued request. -/
structure Backend where
  refresh : String → RefreshResult
  resend : AxiosRequest → ResendOutcome

/-- What the interceptor invocation settles to: resolve with a payload
(the caller never sees the intermediate 401) or reject with an error. -/
inductive InterceptorOutcome where
  | resolve (payload : String)
  | reject (e : HttpError)
  deriving DecidableEq, Repr

/-- Observable trace of one interceptor run: the final client storage, the
settled outcome handed to the original caller, and how many refresh HTTP
calls were issued during the run. -/
structure Trace where
  storage : ClientStorage
  outcome : InterceptorOutcome
  refreshCalls : Nat
  deriving DecidableEq, Repr

/-- The catch block of the response interceptor: remove both token cookies,
remove the `auth-storage` localStorage key, and set window.location to
`/login`. The `cart-storage` key is not touched by this block. -/
def purgeSession (st : ClientStorage) : ClientStorage :=
  { st with
    access_token := none
    refresh_token := none
    authStorage := none
    location := "/login" }

/-- Authorization header value for a bearer token. -/
def bearer (token : String) : String :=
  "Bearer " ++ token

/-- Fallthrough of the response interceptor: every error that does not enter
the refresh branch is returned to the caller as the same rejected error, with
no storage change and no refresh call. -/
def rejectPass (st : ClientStorage) (e : HttpError) : Trace :=
  { storage := st, outcome := .reject e, refreshCalls := 0 }

/-- One invocation of the response-error interceptor. `k` is the rest of the
pipeline handling the result of re-issuing the original request (in the source,
the recursive call through the api instance): if the re-issued request itself
settles with an error, that error is processed by the interceptor again, which
`k` stands for.

Mirrors the source: on a 401 whose config is not yet marked retried, mark it
retried, read the refresh token cookie; if present POST the refresh call; on
refresh success store the new access token cookie, set the Authorization
header and re-issue the original request, returning its result transparently;
on a missing refresh token or a rejected refresh call, run the catch block
(purge session, navigate to login) and fall through to rejecting the original
error. Every other error falls through to rejection unchanged. -/
def handlerPass (be : Backend) (k : ClientStorage → HttpError → Trace)
    (st : ClientStorage) (e : HttpError) : Trace :=
  if e.status = some 401 ∧ e.config.retryFlag = false then
    match st.refresh_token with
    | none =>
        { storage := purgeSession st, outcome := .reject e, refreshCalls := 0 }
    | some rt =>
        match be.refresh rt with
        | .failure =>
            { storage := purgeSession st, outcome := .reject e, refreshCalls := 1 }
        | .success access =>
            let st1 := { st with access_token := some access }
            let req2 : AxiosRequest :=
              { e.config with retryFlag := true, authHeader := some (bearer access) }
            match be.resend req2 with
            | .ok payload =>
                { storage := st1, outcome := .resolve payload, refreshCalls := 1 }
            | .err status2 payload2 =>
                let t := k st1 { status := status2, config := req2, payload := payload2 }
                { t with refreshCalls := t.refreshCalls + 1 }
  else
    rejectPass st e

/-- The full interceptor pipeline for one failing request. The re-issued
request goes through the interceptor once more; an error of the re-issued
request is already marked retried, so the second pass never re-enters the
refresh branch and the inner continuation is never consulted (see
`handlerPass_retried`). Depth two therefore models the source exactly. -/
def intercept (be : Backend) : ClientStorage → HttpError → Trace :=
  handlerPass be (handlerPass be rejectPass)

/-- The User record of the auth store (auth-store.ts). -/
structure User where
  id : String
  email : String
  username : String
  first_name : String
  last_name : String
  phone : String
  avatar : Option String
  address : String
  city : String
  district : String
  ward : String
  full_name : String
  full_address : String
  date_joined : String
  is_email_verified : Bool
  deriving DecidableEq, Repr

/-- A backend error carried by a rejected API promise. -/
structure ApiError where
  payload : String
  deriving DecidableEq, Repr

/-- In-memory state of the auth store. -/
structure AuthState where
  user : Option User
  isAuthenticated : Bool
  isLoading : Bool
  deriving DecidableEq, Repr

/-- The token pair in the login response data. -/
structure TokenPair where
  access : String
  refresh : String
  deriving DecidableEq, Repr

/-- Settled results of the network calls the auth store actions await:
the login POST and the profile GET. -/
structure AuthEnv where
  loginResult : Except ApiError TokenPair
  profileResult : Except ApiError User

/-- fetchProfile of the auth store: awaits the profile GET; on success stores
the user record and sets isAuthenticated; on any failure the catch block sets
user to null and isAuthenticated to false. The action itself never rejects. -/
def fetchProfile (r : Except ApiError User) (s : AuthState) :
    AuthState × Except ApiError Unit :=
  match r with
  | .ok u => ({ s with user := some u, isAuthenticated := true }, .ok ())
  | .error _ => ({ s with user := none, isAuthenticated := false }, .ok ())

/-- login of the auth store: sets isLoading, awaits the login POST; on a
rejection the error propagates past the finally block (which only resets
isLoading). On success, stores both token cookies, awaits fetchProfile, then
sets isAuthenticated to true; finally resets isLoading. Returns the final
cookie storage, the final store state, and the settled result of the action. -/
def login (env : AuthEnv) (cs : ClientStorage) (s : AuthState) :
    ClientStorage × AuthState × Except ApiError Unit :=
  let s0 := { s with isLoading := true }
  match env.loginResult with
  | .error e =>
      (cs, { s0 with isLoading := false }, .error e)
  | .ok tp =>
      let cs1 := { cs with
        access_token := some tp.access
        refresh_token := some tp.refresh }
      let s1 := (fetchProfile env.profileResult s0).1
      let s2 := { s1 with isAuthenticated := true }
      (cs1, { s2 with isLoading := false }, .ok ())

/-- A product record inside a cart item (cart store module). -/
structure Product where
  id : Nat
  name : String
  slug : String
  price : Int
  sale_price : Option Int
  current_price : Int
  primary_image : Option String
  stock : Nat
  deriving DecidableEq, Repr

/-- A cart line item. -/
structure CartItem where
  id : Nat
  product : Product
  quantity : Nat
  subtotal : Int
  deriving DecidableEq, Repr

/-- The server-owned cart aggregate. -/
structure Cart where
  id : Nat
  items : List CartItem
  total_items : Nat
  subtotal : Int
  deriving DecidableEq, Repr

/-- In-memory state of the cart store. -/
structure CartState where
  cart : Option Cart
  isLoading : Bool
  error : Option String
  deriving DecidableEq, Repr

/-- A backend error as read by the cart store catch blocks: the optional
`error` and `message` fields of the rejected response data. -/
structure CartApiError where
  errField : Option String
  message : Option String
  deriving DecidableEq, Repr

/-- Response data of the cart mutation endpoints (add/update/remove): the
store reads the `cart` field of the response data. -/
structure CartMutationResponse where
  cart : Cart
  deriving DecidableEq, Repr

/-- Response data of the clear endpoint. The source discards this response
entirely, so the client never depends on its shape; the optional cart field
models whatever snapshot the server may include in it. -/
structure ClearResponse where
  cart : Option Cart
  deriving DecidableEq, Repr

/-- fetchCart: sets isLoading and clears error, awaits GET /cart/; on success
replaces the cart with the response data; on failure records the message
(falling back to a fixed string) without rethrowing; finally resets
isLoading. -/
def fetchCart (r : Except CartApiError Cart) (s : CartState) :
    CartState × Except CartApiError Unit :=
  let s0 := { s with isLoading := true, error := none }
  match r with
  | .ok c => ({ s0 with cart := some c, isLoading := false }, .ok ())
  | .error e =>
      ({ s0 with
          error := some (e.message.getD "Failed to fetch cart")
          isLoading := false }, .ok ())

/-- addToCart: sets isLoading and clears error, awaits POST /cart/add/ with
the product id and quantity; on success replaces the cart with the `cart`
field of the response; on failure records the error message and rethrows;
finally resets isLoading. -/
def addToCart (productId : Nat) (quantity : Nat)
    (r : Except CartApiError CartMutationResponse) (s : CartState) :
    CartState × Except CartApiError Unit :=
  let s0 := { s with isLoading := true, error := none }
  match r with
  | .ok resp => ({ s0 with cart := some resp.cart, isLoading := false }, .ok ())
  | .error e =>
      ({ s0 with
          error := some (e.errField.getD "Failed to add to cart")
          isLoading := false }, .error e)

/-- updateQuantity: same shape as addToCart against POST /cart/update/. -/
def updateQuantity (productId : Nat) (quantity : Nat)
    (r : Except CartApiError CartMutationResponse) (s : CartState) :
    CartState × Except CartApiError Unit :=
  let s0 := { s with isLoading := true, error := none }
  match r with
  | .ok resp => ({ s0 with cart := some resp.cart, isLoading := false }, .ok ())
  | .error e =>
      ({ s0 with
          error := some (e.errField.getD "Failed to update cart")
          isLoading := false }, .error e)

/-- removeFromCart: same shape against POST /cart/remove/. -/
def removeFromCart (productId : Nat)
    (r : Except CartApiError CartMutationResponse) (s : CartState) :
    CartState × Except CartApiError Unit :=
  let s0 := { s with isLoading := true, error := none }
  match r with
  | .ok resp => ({ s0 with cart := some resp.cart, isLoading := false }, .ok ())
  | .error e =>
      ({ s0 with
          error := some (e.errField.getD "Failed to remove from cart")
          isLoading := false }, .error e)

/-- clearCart: sets isLoading and clears error, awaits POST /cart/clear/
discarding its response, and on success sets the local cart to null; on
failure records the error message and rethrows; finally resets isLoading. -/
def clearCart (r : Except CartApiError ClearResponse) (s : CartState) :
    CartState × Except CartApiError Unit :=
  let s0 := { s with isLoading := true, error := none }
  match r with
  | .ok _ => ({ s0 with cart := none, isLoading := false }, .ok ())
  | .error e =>
      ({ s0 with
          error := some (e.errField.getD "Failed to clear cart")
          isLoading := false }, .error e)

/-- The line items the UI derives from the cart store: the items of the held
cart, or none when no cart is held. -/
def storeItems (s : CartState) : List CartItem :=
  match s.cart with
  | none => []
  | some c => c.items

/-- The request config after the refresh branch has marked it retried and
replaced its Authorization header with the freshly issued access token. -/
def retriedConfig (c : AxiosRequest) (access : String) : AxiosRequest :=
  { c with retryFlag := true, authHeader := some (bearer access) }

/-! Concrete fixtures used by counterexamples and witnesses. -/

/-- A request that fails 401 twice: the original config of the run. -/
def reqDouble401 : AxiosRequest :=
  { url := "/users/profile/", authHeader := some (bearer "stale"), retryFlag := false }

/-- The first 401 error of the double-401 run. -/
def errDouble401 : HttpError :=
  { status := some 401, config := reqDouble401, payload := "token_not_valid" }

/-- Client storage at the start of the double-401 run: both tokens present,
both persisted snapshots present, the user on a shop page. -/
def stDouble401 : ClientStorage :=
  { access_token := some "stale"
    refresh_token := some "RT"
    authStorage := some { user := some "u1", isAuthenticated := true }
    cartStorage := some { cartData := some "two items" }
    location := "/shop" }

/-- A backend whose refresh endpoint succeeds but which rejects the re-issued
request with 401 again: the refreshed token is still rejected. -/
def beDouble401 : Backend :=
  { refresh := fun _ => .success "fresh"
    resend := fun _ => .err (some 401) "still_unauthorized" }

/-- Client storage for the refresh-failure run: a refresh token is present
but the backend rejects it; a cart snapshot sits in localStorage. -/
def stRefreshFail : ClientStorage :=
  { access_token := some "stale"
    refresh_token := some "badRT"
    authStorage := some { user := some "u1", isAuthenticated := true }
    cartStorage := some { cartData := some "two items" }
    location := "/cart" }

/-- A backend whose refresh endpoint rejects every refresh token. -/
def beRefreshFail : Backend :=
  { refresh := fun _ => .failure
    resend := fun _ => .ok "unreachable" }

/-- The 401 error triggering the refresh-failure run. -/
def errRefreshFail : HttpError :=
  { status := some 401
    config := { url := "/cart/", authHeader := some (bearer "stale"), retryFlag := false }
    payload := "token_not_valid" }

/-- A plain 404 error: not a recoverable 401. -/
def err404 : HttpError :=
  { status := some 404
    config := { url := "/products/999/", authHeader := none, retryFlag := false }
    payload := "not found" }

/-- N requests failing 401 concurrently: each interceptor invocation starts
from the same shared client storage, because the source keeps no shared
in-flight-refresh state whatsoever — each invocation reads the refresh token
cookie on its own and fires its own refresh call. -/
def concurrentTraces (be : Backend) (st : ClientStorage) (es : List HttpError) :
    List Trace :=
  es.map (intercept be st)

/-- Total number of refresh HTTP calls issued across the concurrent runs. -/
def totalRefreshCalls (be : Backend) (st : ClientStorage) (es : List HttpError) :
    Nat :=
  (List.map Trace.refreshCalls (concurrentTraces be st es)).sum

/-- Two requests failing 401 at the same time. -/
def esConcurrent : List HttpError := [errDouble401, errRefreshFail]

/-- Auth environment where the credential call succeeds but the subsequent
profile fetch is rejected by the backend. -/
def envProfileFail : AuthEnv :=
  { loginResult := .ok { access := "ACC", refresh := "REF" }
    profileResult := .error { payload := "profile fetch rejected" } }

/-- Auth environment where the credential call itself is rejected. -/
def envBadCreds : AuthEnv :=
  { loginResult := .error { payload := "Invalid credentials" }
    profileResult := .error { payload := "not reached" } }

/-- Anonymous client storage: no tokens, no persisted snapshots. -/
def csAnon : ClientStorage :=
  { access_token := none
    refresh_token := none
    authStorage := none
    cartStorage := none
    location := "/login" }

/-- Auth store state before any login. -/
def sLoggedOut : AuthState :=
  { user := none, isAuthenticated := false, isLoading := false }

/-- A sample product. -/
def mugProduct : Product :=
  { id := 7
    name := "Owl Mug"
    slug := "owl-mug"
    price := 120
    sale_price := none
    current_price := 120
    primary_image := none
    stock := 5 }

/-- Cart store state holding a last-known-good snapshot with one line item. -/
def sWithItem : CartState :=
  { cart := some
      { id := 31
        items := [{ id := 1, product := mugProduct, quantity := 2, subtotal := 240 }]
        total_items := 2
        subtotal := 240 }
    isLoading := false
    error := none }

/-- An empty cart snapshot as the server might return it from the clear
endpoint. -/
def emptyServerCart : Cart :=
  { id := 31, items := [], total_items := 0, subtotal := 0 }

/-! Theorems. -/

/-- An error whose config is already marked retried takes the fallthrough
branch whatever the continuation: the pipeline cut-off at depth two is exact. -/
theorem handlerPass_retried (be : Backend) (k : ClientStorage → HttpError → Trace)
    (st : ClientStorage) (e : HttpError) (h : e.config.retryFlag = true) :
    handlerPass be k st e = rejectPass st e := by
  unfold handlerPass
  rw [if_neg]
  intro hc
  rw [h] at hc
  exact absurd hc.2 (by simp)

/-- A 401 on a not-yet-retried request with a refresh token in storage issues
exactly one refresh call, whatever the backend answers. -/
theorem intercept_refreshCalls_one (be : Backend) (st : ClientStorage)
    (e : HttpError) (rt : String) (h401 : e.status = some 401)
    (hflag : e.config.retryFlag = false) (hrt : st.refresh_token = some rt) :
    (intercept be st e).refreshCalls = 1 := by
  unfold intercept handlerPass
  rw [if_pos ⟨h401, hflag⟩]
  simp only [hrt]
  cases be.refresh rt with
  | failure => rfl
  | success access =>
      cases hres : be.resend ({ e.config with retryFlag := true, authHeader := some (bearer access) }) with
      | ok payload => simp [hres]
      | err status2 payload2 => simp [hres, rejectPass]

/-- C1 counterexample: in a concrete run where the refresh succeeds but the
re-issued request is rejected 401 again, the pipeline makes exactly one
refresh call and settles by rejecting the second error — it does NOT force a
logout: the location is untouched, the refresh token cookie survives. This
refutes the stated claim that a double 401 settles with a forced logout. -/
theorem c1_counterexample :
    (intercept beDouble401 stDouble401 errDouble401).refreshCalls = 1 ∧
    (intercept beDouble401 stDouble401 errDouble401).storage.location = "/shop" ∧
    (intercept beDouble401 stDouble401 errDouble401).storage.refresh_token = some "RT" ∧
    (intercept beDouble401 stDouble401 errDouble401).outcome =
      InterceptorOutcome.reject
        { status := some 401
          config := retriedConfig reqDouble401 "fresh"
          payload := "still_unauthorized" } :=
  ⟨rfl, rfl, rfl, rfl⟩

/-- C1 (amended): at most one token-refresh attempt is ever made per request.
A 401 on a request already marked retried is rejected with no refresh at all;
and when a request fails 401, the refresh succeeds, and the re-issued request
fails again, the run settles as a rejection of the second error after exactly
one refresh call, with no loop and no forced logout (only the new access
token cookie is written). -/
theorem c1_at_most_one_refresh :
    (∀ (be : Backend) (st : ClientStorage) (e : HttpError),
      e.config.retryFlag = true → intercept be st e = rejectPass st e) ∧
    (∀ (be : Backend) (st : ClientStorage) (e : HttpError) (rt access : String)
      (status2 : Option Nat) (payload2 : String),
      e.status = some 401 → e.config.retryFlag = false →
      st.refresh_token = some rt →
      be.refresh rt = RefreshResult.success access →
      be.resend (retriedConfig e.config access) = ResendOutcome.err status2 payload2 →
      intercept be st e =
        { storage := { st with access_token := some access }
          outcome := InterceptorOutcome.reject
            { status := status2
              config := retriedConfig e.config access
              payload := payload2 }
          refreshCalls := 1 }) := by
  constructor
  · intro be st e h
    exact handlerPass_retried be _ st e h
  · intro be st e rt access status2 payload2 h401 hflag hrt hrefresh hresend
    unfold intercept handlerPass
    rw [if_pos ⟨h401, hflag⟩]
    simp only [retriedConfig] at hresend
    simp [hrt, hrefresh, hresend, rejectPass, retriedConfig]

/-- C1 witness: the amended statement applied to the concrete double-401 run. -/
theorem c1_at_most_one_refresh_witness :
    intercept beDouble401 stDouble401 errDouble401 =
      { storage := { stDouble401 with access_token := some "fresh" }
        outcome := InterceptorOutcome.reject
          { status := some 401
            config := retriedConfig reqDouble401 "fresh"
            payload := "still_unauthorized" }
        refreshCalls := 1 } :=
  c1_at_most_one_refresh.2 beDouble401 stDouble401 errDouble401 "RT" "fresh"
    (some 401) "still_unauthorized" rfl rfl rfl rfl rfl

/-- C2 counterexample: in a concrete refresh-failure run with a cart snapshot
persisted in localStorage, the purge clears the token cookies and the auth
snapshot but the cart snapshot survives — refuting the stated claim that all
persisted client-side session state including the cart snapshot is purged. -/
theorem c2_counterexample :
    (intercept beRefreshFail stRefreshFail errRefreshFail).storage.cartStorage =
      some { cartData := some "two items" } ∧
    (intercept beRefreshFail stRefreshFail errRefreshFail).storage.cartStorage ≠ none ∧
    (intercept beRefreshFail stRefreshFail errRefreshFail).storage.authStorage = none ∧
    (intercept beRefreshFail stRefreshFail errRefreshFail).storage.access_token = none :=
  ⟨rfl, by decide, rfl, rfl⟩

/-- C2 (amended): whenever the refresh flow fails (missing refresh token, or
the refresh call rejected), the client removes both token cookies and the
persisted auth snapshot, forces navigation to the login page, and rejects
with the original error — but the persisted cart snapshot is left in place. -/
theorem c2_session_purge :
    ∀ (be : Backend) (st : ClientStorage) (e : HttpError),
      e.status = some 401 → e.config.retryFlag = false →
      (st.refresh_token = none ∨
        ∃ rt, st.refresh_token = some rt ∧ be.refresh rt = RefreshResult.failure) →
      (intercept be st e).storage.access_token = none ∧
      (intercept be st e).storage.refresh_token = none ∧
      (intercept be st e).storage.authStorage = none ∧
      (intercept be st e).storage.location = "/login" ∧
      (intercept be st e).storage.cartStorage = st.cartStorage ∧
      (intercept be st e).outcome = InterceptorOutcome.reject e := by
  intro be st e h401 hflag h
  unfold intercept handlerPass
  rw [if_pos ⟨h401, hflag⟩]
  rcases h with hnone | ⟨rt, hrt, hfail⟩
  · simp [hnone, purgeSession]
  · simp [hrt, hfail, purgeSession]

/-- C2 witness: the amended statement applied to the concrete refresh-failure
run. -/
theorem c2_session_purge_witness :
    (intercept beRefreshFail stRefreshFail errRefreshFail).storage.access_token = none ∧
    (intercept beRefreshFail stRefreshFail errRefreshFail).storage.refresh_token = none ∧
    (intercept beRefreshFail stRefreshFail errRefreshFail).storage.authStorage = none ∧
    (intercept beRefreshFail stRefreshFail errRefreshFail).storage.location = "/login" ∧
    (intercept beRefreshFail stRefreshFail errRefreshFail).storage.cartStorage =
      stRefreshFail.cartStorage ∧
    (intercept beRefreshFail stRefreshFail errRefreshFail).outcome =
      InterceptorOutcome.reject errRefreshFail :=
  c2_session_purge beRefreshFail stRefreshFail errRefreshFail rfl rfl
    (Or.inr ⟨"badRT", rfl, rfl⟩)

/-- C7: every response error that is not a recoverable 401 — wrong status, or
a 401 on a request already marked retried — is propagated to the caller as a
rejection of the very same error, with no refresh call and no change to
client storage. -/
theorem c7_non401_passthrough :
    ∀ (be : Backend) (st : ClientStorage) (e : HttpError),
      (e.status ≠ some 401 ∨ e.config.retryFlag = true) →
      intercept be st e = rejectPass st e := by
  intro be st e h
  rcases h with hs | hflag
  · unfold intercept handlerPass
    rw [if_neg fun hc => hs hc.1]
  · exact handlerPass_retried be _ st e hflag

/-- C7 witness: a concrete 404 passes through unchanged. -/
theorem c7_non401_passthrough_witness :
    intercept beRefreshFail stRefreshFail err404 = rejectPass stRefreshFail err404 :=
  c7_non401_passthrough beRefreshFail stRefreshFail err404 (Or.inl (by decide))

/-- A list of runs each issuing one refresh call totals one call per run. -/
theorem totalRefreshCalls_of_each_one (be : Backend) (st : ClientStorage)
    (es : List HttpError)
    (h : ∀ e ∈ es, (intercept be st e).refreshCalls = 1) :
    totalRefreshCalls be st es = es.length := by
  induction es with
  | nil => rfl
  | cons a as ih =>
      unfold totalRefreshCalls concurrentTraces at ih ⊢
      simp only [List.map_cons, List.sum_cons, List.length_cons]
      rw [h a (List.mem_cons_self a as),
        ih fun e he => h e (List.mem_cons_of_mem a he)]
      omega

/-- C9: N requests failing 401 concurrently, each starting before any refresh
lands (so each reads the same shared storage with the refresh token present),
produce one refresh call each — N calls in total, with no coalescing behind a
shared in-flight refresh. -/
theorem c9_no_refresh_coalescing :
    ∀ (be : Backend) (st : ClientStorage) (es : List HttpError) (rt : String),
      st.refresh_token = some rt →
      (∀ e ∈ es, e.status = some 401 ∧ e.config.retryFlag = false) →
      (∀ e ∈ es, (intercept be st e).refreshCalls = 1) ∧
      totalRefreshCalls be st es = es.length := by
  intro be st es rt hrt hall
  have hone : ∀ e ∈ es, (intercept be st e).refreshCalls = 1 := fun e he =>
    intercept_refreshCalls_one be st e rt (hall e he).1 (hall e he).2 hrt
  exact ⟨hone, totalRefreshCalls_of_each_one be st es hone⟩

/-- C9 witness: two concrete simultaneous 401 failures produce two refresh
calls. -/
theorem c9_no_refresh_coalescing_witness :
    (∀ e ∈ esConcurrent, (intercept beDouble401 stDouble401 e).refreshCalls = 1) ∧
    totalRefreshCalls beDouble401 stDouble401 esConcurrent = 2 :=
  c9_no_refresh_coalescing beDouble401 stDouble401 esConcurrent "RT" rfl (by decide)

/-- C3: with the credential call succeeding and the profile fetch rejected,
login still finishes with isAuthenticated set to true while user is null —
the code sets the flag unconditionally after awaiting fetchProfile, which
swallows its failure. This contradicts the claim (and the store's own
invariant, kept by setUser and fetchProfile, that the flag tracks a present
user). -/
theorem c3_login_authenticated_despite_profile_failure :
    (login envProfileFail csAnon sLoggedOut).2.1.isAuthenticated = true ∧
    (login envProfileFail csAnon sLoggedOut).2.1.user = none ∧
    (login envProfileFail csAnon sLoggedOut).2.2 = Except.ok () :=
  ⟨rfl, rfl, rfl⟩

/-- C6: when the credential call rejects, login leaves the store state
untouched apart from resetting isLoading — user and isAuthenticated keep
their prior values — and the action rejects with the backend error. -/
theorem c6_login_failure_leaves_state :
    ∀ (env : AuthEnv) (cs : ClientStorage) (s : AuthState) (e : ApiError),
      env.loginResult = Except.error e →
      (login env cs s).2 = ({ s with isLoading := false }, Except.error e) := by
  intro env cs s e h
  unfold login
  simp only [h]

/-- C6 witness: a concrete invalid-credentials login. -/
theorem c6_login_failure_leaves_state_witness :
    (login envBadCreds csAnon sLoggedOut).2 =
      ({ sLoggedOut with isLoading := false },
        Except.error { payload := "Invalid credentials" }) :=
  c6_login_failure_leaves_state envBadCreds csAnon sLoggedOut
    { payload := "Invalid credentials" } rfl

/-- C10: fetchProfile always resolves, whatever the profile request settles
to; on a rejected profile request it sets user to null and isAuthenticated to
false, so no caller can observe the failure as an exception. -/
theorem c10_fetchProfile_never_rejects :
    (∀ (r : Except ApiError User) (s : AuthState),
      (fetchProfile r s).2 = Except.ok ()) ∧
    (∀ (err : ApiError) (s : AuthState),
      (fetchProfile (Except.error err) s).1 =
        { s with user := none, isAuthenticated := false }) := by
  constructor
  · intro r s
    cases r <;> rfl
  · intro err s
    rfl

/-- C4 counterexample: clearCart discards the response body; even when the
server returns a full cart snapshot, the store ends with no cart at all
rather than that snapshot — refuting the stated claim that every mutating
operation replaces the local cart with the server's returned snapshot. -/
theorem c4_counterexample :
    (clearCart (Except.ok { cart := some emptyServerCart }) sWithItem).1.cart ≠
      some emptyServerCart ∧
    (clearCart (Except.ok { cart := some emptyServerCart }) sWithItem).1.cart = none :=
  ⟨by decide, rfl⟩

/-- C4 (amended): the local cart is never computed by client arithmetic:
fetch, add, updateQuantity and remove install exactly the cart carried by the
server response, and clear ignores the response body and sets the local cart
to null. -/
theorem c4_server_snapshot_replacement :
    (∀ (pid q : Nat) (resp : CartMutationResponse) (s : CartState),
      (addToCart pid q (Except.ok resp) s).1.cart = some resp.cart) ∧
    (∀ (pid q : Nat) (resp : CartMutationResponse) (s : CartState),
      (updateQuantity pid q (Except.ok resp) s).1.cart = some resp.cart) ∧
    (∀ (pid : Nat) (resp : CartMutationResponse) (s : CartState),
      (removeFromCart pid (Except.ok resp) s).1.cart = some resp.cart) ∧
    (∀ (c : Cart) (s : CartState),
      (fetchCart (Except.ok c) s).1.cart = some c) ∧
    (∀ (resp : ClearResponse) (s : CartState),
      (clearCart (Except.ok resp) s).1.cart = none) :=
  ⟨fun _ _ _ _ => rfl, fun _ _ _ _ => rfl, fun _ _ _ => rfl,
    fun _ _ => rfl, fun _ _ => rfl⟩

/-- C5: when the server call of any cart mutation rejects, the store keeps
exactly the cart snapshot it held before the call, and the action rejects
with the same error. -/
theorem c5_mutation_failure_preserves_cart :
    ∀ (pid q : Nat) (e : CartApiError) (s : CartState),
      ((addToCart pid q (Except.error e) s).1.cart = s.cart ∧
        (addToCart pid q (Except.error e) s).2 = Except.error e) ∧
      ((updateQuantity pid q (Except.error e) s).1.cart = s.cart ∧
        (updateQuantity pid q (Except.error e) s).2 = Except.error e) ∧
      ((removeFromCart pid (Except.error e) s).1.cart = s.cart ∧
        (removeFromCart pid (Except.error e) s).2 = Except.error e) ∧
      ((clearCart (Except.error e) s).1.cart = s.cart ∧
        (clearCart (Except.error e) s).2 = Except.error e) :=
  fun _ _ _ _ => ⟨⟨rfl, rfl⟩, ⟨rfl, rfl⟩, ⟨rfl, rfl⟩, ⟨rfl, rfl⟩⟩

/-- C8: clearing twice, each server call succeeding, resolves both times,
leaves no error either time, and after each call the store shows no line
items. -/
theorem c8_clear_idempotent :
    ∀ (s : CartState) (r1 r2 : ClearResponse),
      storeItems (clearCart (Except.ok r1) s).1 = [] ∧
      (clearCart (Except.ok r1) s).2 = Except.ok () ∧
      ((clearCart (Except.ok r1) s).1).error = none ∧
      storeItems (clearCart (Except.ok r2) (clearCart (Except.ok r1) s).1).1 = [] ∧
      (clearCart (Except.ok r2) (clearCart (Except.ok r1) s).1).2 = Except.ok () ∧
      ((clearCart (Except.ok r2) (clearCart (Except.ok r1) s).1).1).error = none :=
  fun _ _ _ => ⟨rfl, rfl, rfl, rfl, rfl, rfl⟩

end Owls
